import Mathlib

/-!
Verification of the pyxantech protocol engine (`src/pyxantech/__init__.py`).

The Python module is shallowly embedded: dictionaries become association
lists, Python runtime exceptions become explicit `PyErr` values threaded
through `Except`, the serial transport becomes an explicit state record
(pending input bytes plus the ordered list of requests written), and the
per-vendor descriptor tables (the `config` and `protocol` modules are data,
consumed read-only) become structures over which the theorems quantify.
Regular-expression patterns from the descriptor tables are abstracted as
matcher functions returning the named-group dictionary of `re.search`.
-/

namespace Pyxantech

deriving instance DecidableEq for Except

/-- Python runtime exceptions that the embedded code can raise. -/
inductive PyErr where
  | attributeError
  | typeError
  | keyError
  | valueError
  | assertionError
  | unicodeError
  | serialTimeout (got : List Char)
  deriving DecidableEq

/-- Python values stored in status dictionaries and passed as command arguments. -/
inductive PyVal where
  | int (n : Int)
  | bool (b : Bool)
  | str (s : String)
  deriving DecidableEq

/-- Python str() of a value, as used by str.format substitution. -/
def pyStr : PyVal → String
  | .int n => toString n
  | .bool b => if b then "True" else "False"
  | .str s => s

/-- Python truthiness, as used by `if power:` / `if mute:`. -/
def pyTruthy : PyVal → Bool
  | .bool b => b
  | .int n => n != 0
  | .str s => !(s == "")

/-- Python numeric coercion: bools are ints, strings raise TypeError in min and max. -/
def pyToIntNum : PyVal → Except PyErr Int
  | .int n => .ok n
  | .bool b => .ok (if b then 1 else 0)
  | .str _ => .error .typeError

/-- The value computed by int(max(0, min(v, maxV))) on integers. -/
def clampI (v maxV : Int) : Int := max 0 (min v maxV)

/-- One piece of a Python format-string command template: literal text or a named placeholder. -/
inductive TemplateItem where
  | lit (s : String)
  | field (f : String)
  deriving DecidableEq

/-- A command template, e.g. the descriptor text between braces split into items. -/
abbrev Template := List TemplateItem

/-- Abstract regular-expression pattern: re.search returning the groupdict of the
match, or none when the pattern does not match the string. -/
def Pattern := String → Option (List (String × String))

/-- The protocol descriptor's extras table entries used by restore_zone. -/
structure ExtrasConfig where
  restore_success : Option String
  restore_zone : Option (List String)

/-- Protocol descriptor (PROTOCOL_CONFIG entry merged with RS232_RESPONSE_PATTERNS,
both external data consumed read-only). Every field read through
get_protocol_config uses dict.get, hence the Options. -/
structure ProtocolConfig where
  command_eol : Option String
  command_separator : Option String
  response_eol : Option String
  commands : Option (String → Option Template)
  responses : Option (String → Option Pattern)
  status_translation : Option (List (String × List (String × String)))
  zone_status_pattern : Option Pattern
  extras : Option ExtrasConfig
  zone_status_commands : Option (List String)

/-- Device descriptor (DEVICE_CONFIG entry, external data consumed read-only). -/
structure DeviceConfig where
  zones : List PyVal
  sources : List PyVal
  max_volume : Int
  max_treble : Int
  max_bass : Int
  max_balance : Int
  serial_config : List (String × Int)
  zone_status_skip : Option Nat
  deriving DecidableEq

/-- Python str.format over a template: substitutes named placeholders from the
argument dictionary; a placeholder missing from the arguments raises KeyError. -/
def formatTemplate : Template → List (String × String) → Except PyErr String
  | [], _ => .ok ""
  | .lit s :: rest, args => (formatTemplate rest args).map (fun t => s ++ t)
  | .field k :: rest, args =>
    match args.lookup k with
    | none => .error .keyError
    | some v => (formatTemplate rest args).map (fun t => v ++ t)

/-- The `_command` helper: template for the format code, plus command separator and
command terminator, formatted with the arguments and encoded as ASCII.
A missing commands table raises AttributeError (None.get); a missing template,
separator or terminator raises TypeError (None inside string concatenation). -/
def _command (pc : ProtocolConfig) (format_code : String) (args : List (String × String)) :
    Except PyErr String :=
  match pc.commands with
  | none => .error .attributeError
  | some cmds =>
    match cmds format_code, pc.command_separator, pc.command_eol with
    | none, _, _ => .error .typeError
    | _, none, _ => .error .typeError
    | _, _, none => .error .typeError
    | some tmpl, some sep, some eol =>
      match formatTemplate (tmpl ++ [.lit sep, .lit eol]) args with
      | .error e => .error e
      | .ok s => if s.data.all (fun c => c.toNat < 128) then .ok s else .error .unicodeError

/-- The `_zone_status_cmd` builder: asserts zone membership, then encodes.
The zone argument is kept as a Python value because `_zone_status_manual`
passes a command-name string where an integer zone is expected. -/
def _zone_status_cmd (dc : DeviceConfig) (pc : ProtocolConfig) (zone : PyVal) :
    Except PyErr String :=
  if zone ∈ dc.zones then _command pc "zone_status" [("zone", pyStr zone)]
  else .error .assertionError

/-- The `_set_power_cmd` builder: asserts zone membership, branches on truthiness. -/
def _set_power_cmd (dc : DeviceConfig) (pc : ProtocolConfig) (zone power : PyVal) :
    Except PyErr String :=
  if zone ∈ dc.zones then
    if pyTruthy power then _command pc "power_on" [("zone", pyStr zone)]
    else _command pc "power_off" [("zone", pyStr zone)]
  else .error .assertionError

/-- The `_set_mute_cmd` builder. -/
def _set_mute_cmd (dc : DeviceConfig) (pc : ProtocolConfig) (zone mute : PyVal) :
    Except PyErr String :=
  if zone ∈ dc.zones then
    if pyTruthy mute then _command pc "mute_on" [("zone", pyStr zone)]
    else _command pc "mute_off" [("zone", pyStr zone)]
  else .error .assertionError

/-- The `_set_volume_cmd` builder: asserts zone membership and clamps the volume
into [0, max_volume] via int(max(0, min(volume, max_volume))). -/
def _set_volume_cmd (dc : DeviceConfig) (pc : ProtocolConfig) (zone volume : PyVal) :
    Except PyErr String :=
  if zone ∈ dc.zones then
    match pyToIntNum volume with
    | .error e => .error e
    | .ok v =>
      _command pc "set_volume"
        [("zone", pyStr zone), ("volume", pyStr (.int (clampI v dc.max_volume)))]
  else .error .assertionError

/-- The `_set_treble_cmd` builder: clamps into [0, max_treble]. -/
def _set_treble_cmd (dc : DeviceConfig) (pc : ProtocolConfig) (zone treble : PyVal) :
    Except PyErr String :=
  if zone ∈ dc.zones then
    match pyToIntNum treble with
    | .error e => .error e
    | .ok v =>
      _command pc "set_treble"
        [("zone", pyStr zone), ("treble", pyStr (.int (clampI v dc.max_treble)))]
  else .error .assertionError

/-- The `_set_bass_cmd` builder: clamps into [0, max_bass]. -/
def _set_bass_cmd (dc : DeviceConfig) (pc : ProtocolConfig) (zone bass : PyVal) :
    Except PyErr String :=
  if zone ∈ dc.zones then
    match pyToIntNum bass with
    | .error e => .error e
    | .ok v =>
      _command pc "set_bass"
        [("zone", pyStr zone), ("bass", pyStr (.int (clampI v dc.max_bass)))]
  else .error .assertionError

/-- The `_set_balance_cmd` builder: clamps into [0, max_balance] (no int() in the
source, but max and min on integers already yield the clamped integer). -/
def _set_balance_cmd (dc : DeviceConfig) (pc : ProtocolConfig) (zone balance : PyVal) :
    Except PyErr String :=
  if zone ∈ dc.zones then
    match pyToIntNum balance with
    | .error e => .error e
    | .ok v =>
      _command pc "set_balance"
        [("zone", pyStr zone), ("balance", pyStr (.int (clampI v dc.max_balance)))]
  else .error .assertionError

/-- The `_set_source_cmd` builder: asserts zone membership then source membership. -/
def _set_source_cmd (dc : DeviceConfig) (pc : ProtocolConfig) (zone source : PyVal) :
    Except PyErr String :=
  if zone ∈ dc.zones then
    if source ∈ dc.sources then
      _command pc "set_source" [("zone", pyStr zone), ("source", pyStr source)]
    else .error .assertionError
  else .error .assertionError

/-- The status_translation pass of ZoneStatus.from_string: for each matched field
present in the translation table whose raw token is in the table, replace it. -/
def applyTranslation (tr : Option (List (String × List (String × String))))
    (gd : List (String × String)) : List (String × String) :=
  match tr with
  | none => gd
  | some t =>
    gd.map (fun kv =>
      match (t.lookup kv.1).bind (fun m => m.lookup kv.2) with
      | some v2 => (kv.1, v2)
      | none => kv)

/-- Keys retyped to bool by ZoneStatus.retype_bools. -/
def boolKeys : List String := ["power", "mute", "paged", "linked", "pa"]

/-- Keys retyped to int by ZoneStatus.retype_ints. -/
def intKeys : List String := ["zone", "volume", "treble", "bass", "balance", "source"]

/-- ZoneStatus construction: bool keys become (token in ('1','01')), int keys go
through int() which raises ValueError on a non-numeric token. -/
def retypeFields : List (String × String) → Except PyErr (List (String × PyVal))
  | [] => .ok []
  | (k, v) :: rest =>
    let pv : Except PyErr PyVal :=
      if k ∈ boolKeys then .ok (.bool (v == "1" || v == "01"))
      else if k ∈ intKeys then
        match v.toInt? with
        | some n => .ok (.int n)
        | none => .error .valueError
      else .ok (.str v)
    match pv, retypeFields rest with
    | .ok p, .ok r => .ok ((k, p) :: r)
    | .error e, _ => .error e
    | .ok _, .error e => .error e

/-- ZoneStatus.from_string: empty reply returns None; otherwise re.search is run
and match.groupdict() is evaluated immediately, so a failed search raises
AttributeError before the dead `if not match` check is reached; a missing
zone_status pattern makes re.search raise TypeError. On a match, translation
and retyping produce the status dictionary. -/
def ZoneStatus.from_string (pc : ProtocolConfig) (string : String) :
    Except PyErr (Option (List (String × PyVal))) :=
  if string = "" then .ok none
  else
    match pc.zone_status_pattern with
    | none => .error .typeError
    | some pat =>
      match pat string with
      | none => .error .attributeError
      | some gd =>
        match retypeFields (applyTranslation pc.status_translation gd) with
        | .error e => .error e
        | .ok d => .ok (some d)

/-- Python slice result[-n:] as used by the framer's terminator comparison:
for n = 0 the slice is the whole accumulator, otherwise its last n bytes. -/
def pySuffix (n : Nat) (l : List Char) : List Char :=
  if n = 0 then l else l.drop (l.length - n)

/-- The framer's stop test: len(result) > skip and result[-len_eol:] == response_eol. -/
def stopCond (eol : List Char) (skip : Nat) (acc : List Char) : Bool :=
  decide (skip < acc.length) && (pySuffix eol.length acc == eol)

/-- The receive loop of `_send_request`: read one byte at a time into the
accumulator; an exhausted stream is the transport read timeout (raises, carrying
the partial bytes); otherwise stop as soon as the stop test holds, returning the
accumulated reply and the unconsumed stream. -/
def readLoop (eol : List Char) (skip : Nat) :
    List Char → List Char → Except PyErr (List Char × List Char)
  | [], acc => .error (.serialTimeout acc)
  | c :: rest, acc =>
    let acc2 := acc ++ [c]
    if stopCond eol skip acc2 then .ok (acc2, rest)
    else readLoop eol skip rest acc2

/-- Transport state of the blocking controller: the bytes the device will yield,
and the requests written so far (in order). -/
structure SyncState where
  stream : List Char
  writes : List String
  deriving DecidableEq

/-- The `_send_request` method: buffers are reset (stale input never leaks), the
request is written and flushed, then the reply is framed byte by byte; a missing
response terminator raises TypeError at len(None) after the write. -/
def sendRequest (pc : ProtocolConfig) (request : String) (skip : Nat) (st : SyncState) :
    Except PyErr String × SyncState :=
  let st1 : SyncState := { st with writes := st.writes ++ [request] }
  match pc.response_eol with
  | none => (.error .typeError, st1)
  | some eol =>
    match readLoop eol.data skip st1.stream [] with
    | .error e => (.error e, { st1 with stream := [] })
    | .ok (r, rest) => (.ok (String.mk r), { st1 with stream := rest })

/-- AmpControlSync.zone_status: skip length resolved (or 0), command built (the
zone assertion runs here, before any transport write), one exchange, decode. -/
def AmpControlSync.zone_status (dc : DeviceConfig) (pc : ProtocolConfig) (zone : Int)
    (st : SyncState) : Except PyErr (Option (List (String × PyVal))) × SyncState :=
  let skip := dc.zone_status_skip.getD 0
  match _zone_status_cmd dc pc (.int zone) with
  | .error e => (.error e, st)
  | .ok cmd =>
    match sendRequest pc cmd skip st with
    | (.error e, st2) => (.error e, st2)
    | (.ok response, st2) =>
      match ZoneStatus.from_string pc response with
      | .error e => (.error e, st2)
      | .ok d => (.ok d, st2)

/-- AmpControlSync.set_power: build (assert) then one exchange. -/
def AmpControlSync.set_power (dc : DeviceConfig) (pc : ProtocolConfig) (zone : Int)
    (power : Bool) (st : SyncState) : Except PyErr Unit × SyncState :=
  match _set_power_cmd dc pc (.int zone) (.bool power) with
  | .error e => (.error e, st)
  | .ok cmd =>
    match sendRequest pc cmd 0 st with
    | (.error e, st2) => (.error e, st2)
    | (.ok _, st2) => (.ok (), st2)

/-- AmpControlSync.set_mute. -/
def AmpControlSync.set_mute (dc : DeviceConfig) (pc : ProtocolConfig) (zone : Int)
    (mute : Bool) (st : SyncState) : Except PyErr Unit × SyncState :=
  match _set_mute_cmd dc pc (.int zone) (.bool mute) with
  | .error e => (.error e, st)
  | .ok cmd =>
    match sendRequest pc cmd 0 st with
    | (.error e, st2) => (.error e, st2)
    | (.ok _, st2) => (.ok (), st2)

/-- AmpControlSync.set_volume. -/
def AmpControlSync.set_volume (dc : DeviceConfig) (pc : ProtocolConfig) (zone : Int)
    (volume : Int) (st : SyncState) : Except PyErr Unit × SyncState :=
  match _set_volume_cmd dc pc (.int zone) (.int volume) with
  | .error e => (.error e, st)
  | .ok cmd =>
    match sendRequest pc cmd 0 st with
    | (.error e, st2) => (.error e, st2)
    | (.ok _, st2) => (.ok (), st2)

/-- AmpControlSync.set_treble. -/
def AmpControlSync.set_treble (dc : DeviceConfig) (pc : ProtocolConfig) (zone : Int)
    (treble : Int) (st : SyncState) : Except PyErr Unit × SyncState :=
  match _set_treble_cmd dc pc (.int zone) (.int treble) with
  | .error e => (.error e, st)
  | .ok cmd =>
    match sendRequest pc cmd 0 st with
    | (.error e, st2) => (.error e, st2)
    | (.ok _, st2) => (.ok (), st2)

/-- AmpControlSync.set_bass. -/
def AmpControlSync.set_bass (dc : DeviceConfig) (pc : ProtocolConfig) (zone : Int)
    (bass : Int) (st : SyncState) : Except PyErr Unit × SyncState :=
  match _set_bass_cmd dc pc (.int zone) (.int bass) with
  | .error e => (.error e, st)
  | .ok cmd =>
    match sendRequest pc cmd 0 st with
    | (.error e, st2) => (.error e, st2)
    | (.ok _, st2) => (.ok (), st2)

/-- AmpControlSync.set_balance. -/
def AmpControlSync.set_balance (dc : DeviceConfig) (pc : ProtocolConfig) (zone : Int)
    (balance : Int) (st : SyncState) : Except PyErr Unit × SyncState :=
  match _set_balance_cmd dc pc (.int zone) (.int balance) with
  | .error e => (.error e, st)
  | .ok cmd =>
    match sendRequest pc cmd 0 st with
    | (.error e, st2) => (.error e, st2)
    | (.ok _, st2) => (.ok (), st2)

/-- AmpControlSync.set_source. -/
def AmpControlSync.set_source (dc : DeviceConfig) (pc : ProtocolConfig) (zone : Int)
    (source : Int) (st : SyncState) : Except PyErr Unit × SyncState :=
  match _set_source_cmd dc pc (.int zone) (.int source) with
  | .error e => (.error e, st)
  | .ok cmd =>
    match sendRequest pc cmd 0 st with
    | (.error e, st2) => (.error e, st2)
    | (.ok _, st2) => (.ok (), st2)

/-- Loop body of the blocking `_zone_status_manual`: for each command name the
response pattern is subscripted (None responses table raises TypeError, missing
key raises KeyError), then `_zone_status_cmd` is called with the command name
in the zone position, the exchange runs, and a matching reply reaches
status.copy(match.groupdict()) which raises TypeError because dict.copy takes
no arguments; a non-matching reply only logs and the loop continues. -/
def zoneStatusManualSyncGo (dc : DeviceConfig) (pc : ProtocolConfig) :
    List String → List (String × String) → SyncState →
    Except PyErr (List (String × String)) × SyncState
  | [], status, st => (.ok status, st)
  | command :: rest, status, st =>
    match pc.responses with
    | none => (.error .typeError, st)
    | some resp =>
      match resp command with
      | none => (.error .keyError, st)
      | some pat =>
        match _zone_status_cmd dc pc (.str command) with
        | .error e => (.error e, st)
        | .ok cmdBytes =>
          match sendRequest pc cmdBytes 0 st with
          | (.error e, st2) => (.error e, st2)
          | (.ok result, st2) =>
            match pat result with
            | some _ => (.error .typeError, st2)
            | none => zoneStatusManualSyncGo dc pc rest status st2

/-- AmpControlSync._zone_status_manual: iterating a missing zone_status_commands
list raises TypeError; otherwise the loop above runs with an empty accumulator. -/
def AmpControlSync.zone_status_manual (dc : DeviceConfig) (pc : ProtocolConfig)
    (st : SyncState) : Except PyErr (List (String × String)) × SyncState :=
  match pc.zone_status_commands with
  | none => (.error .typeError, st)
  | some cmds => zoneStatusManualSyncGo dc pc cmds [] st

/-- AmpControlSync.restore_zone: status['zone'] is subscripted (KeyError when
absent), the extras table is fetched (AttributeError when the protocol has no
extras), then `extras.get('restore_zone')` with no default is iterated — a
missing list is None and iterating None raises TypeError; with a non-empty list
the first iteration evaluates command(amp_type, zone, status) where command is
a descriptor string, and calling a str raises TypeError before `_send_request`
runs; only an explicitly empty list lets the loop finish normally. -/
def AmpControlSync.restore_zone (dc : DeviceConfig) (pc : ProtocolConfig)
    (status : List (String × PyVal)) (st : SyncState) : Except PyErr Unit × SyncState :=
  match status.lookup "zone" with
  | none => (.error .keyError, st)
  | some _ =>
    match pc.extras with
    | none => (.error .attributeError, st)
    | some ex =>
      match ex.restore_zone with
      | none => (.error .typeError, st)
      | some [] => (.ok (), st)
      | some (_ :: _) => (.error .typeError, st)

/-- Transport state of the suspend-based controller: replies the protocol object
will return, and the requests written so far. -/
structure AsyncState where
  replies : List String
  writes : List String
  deriving DecidableEq

/-- Modelled from the spec: the RS-232 protocol object (the `protocol` module is
not under src/) writes the command bytes to the transport and returns the framed
reply string; an exchange with no reply available times out. -/
def protocolSend (cmd : String) (st : AsyncState) : Except PyErr String × AsyncState :=
  match st.replies with
  | [] => (.error (.serialTimeout []), { st with writes := st.writes ++ [cmd] })
  | r :: rest => (.ok r, { writes := st.writes ++ [cmd], replies := rest })

/-- AmpControlAsync.zone_status: command built first (the zone assertion runs
before any transport write), then skip resolved, one exchange, decode. -/
def AmpControlAsync.zone_status (dc : DeviceConfig) (pc : ProtocolConfig) (zone : Int)
    (st : AsyncState) : Except PyErr (Option (List (String × PyVal))) × AsyncState :=
  match _zone_status_cmd dc pc (.int zone) with
  | .error e => (.error e, st)
  | .ok cmd =>
    let _skip := dc.zone_status_skip.getD 0
    match protocolSend cmd st with
    | (.error e, st2) => (.error e, st2)
    | (.ok s, st2) =>
      match ZoneStatus.from_string pc s with
      | .error e => (.error e, st2)
      | .ok d => (.ok d, st2)

/-- AmpControlAsync.set_power. -/
def AmpControlAsync.set_power (dc : DeviceConfig) (pc : ProtocolConfig) (zone : Int)
    (power : Bool) (st : AsyncState) : Except PyErr Unit × AsyncState :=
  match _set_power_cmd dc pc (.int zone) (.bool power) with
  | .error e => (.error e, st)
  | .ok cmd =>
    match protocolSend cmd st with
    | (.error e, st2) => (.error e, st2)
    | (.ok _, st2) => (.ok (), st2)

/-- AmpControlAsync.set_mute. -/
def AmpControlAsync.set_mute (dc : DeviceConfig) (pc : ProtocolConfig) (zone : Int)
    (mute : Bool) (st : AsyncState) : Except PyErr Unit × AsyncState :=
  match _set_mute_cmd dc pc (.int zone) (.bool mute) with
  | .error e => (.error e, st)
  | .ok cmd =>
    match protocolSend cmd st with
    | (.error e, st2) => (.error e, st2)
    | (.ok _, st2) => (.ok (), st2)

/-- AmpControlAsync.set_volume. -/
def AmpControlAsync.set_volume (dc : DeviceConfig) (pc : ProtocolConfig) (zone : Int)
    (volume : Int) (st : AsyncState) : Except PyErr Unit × AsyncState :=
  match _set_volume_cmd dc pc (.int zone) (.int volume) with
  | .error e => (.error e, st)
  | .ok cmd =>
    match protocolSend cmd st with
    | (.error e, st2) => (.error e, st2)
    | (.ok _, st2) => (.ok (), st2)

/-- AmpControlAsync.set_treble. -/
def AmpControlAsync.set_treble (dc : DeviceConfig) (pc : ProtocolConfig) (zone : Int)
    (treble : Int) (st : AsyncState) : Except PyErr Unit × AsyncState :=
  match _set_treble_cmd dc pc (.int zone) (.int treble) with
  | .error e => (.error e, st)
  | .ok cmd =>
    match protocolSend cmd st with
    | (.error e, st2) => (.error e, st2)
    | (.ok _, st2) => (.ok (), st2)

/-- AmpControlAsync.set_bass. -/
def AmpControlAsync.set_bass (dc : DeviceConfig) (pc : ProtocolConfig) (zone : Int)
    (bass : Int) (st : AsyncState) : Except PyErr Unit × AsyncState :=
  match _set_bass_cmd dc pc (.int zone) (.int bass) with
  | .error e => (.error e, st)
  | .ok cmd =>
    match protocolSend cmd st with
    | (.error e, st2) => (.error e, st2)
    | (.ok _, st2) => (.ok (), st2)

/-- AmpControlAsync.set_balance. -/
def AmpControlAsync.set_balance (dc : DeviceConfig) (pc : ProtocolConfig) (zone : Int)
    (balance : Int) (st : AsyncState) : Except PyErr Unit × AsyncState :=
  match _set_balance_cmd dc pc (.int zone) (.int balance) with
  | .error e => (.error e, st)
  | .ok cmd =>
    match protocolSend cmd st with
    | (.error e, st2) => (.error e, st2)
    | (.ok _, st2) => (.ok (), st2)

/-- AmpControlAsync.set_source. -/
def AmpControlAsync.set_source (dc : DeviceConfig) (pc : ProtocolConfig) (zone : Int)
    (source : Int) (st : AsyncState) : Except PyErr Unit × AsyncState :=
  match _set_source_cmd dc pc (.int zone) (.int source) with
  | .error e => (.error e, st)
  | .ok cmd =>
    match protocolSend cmd st with
    | (.error e, st2) => (.error e, st2)
    | (.ok _, st2) => (.ok (), st2)

/-- Loop body of the suspend-based `_zone_status_manual`: like the blocking one,
but the request is `_command(amp_type, command)` with empty arguments, and the
reply comes from the protocol object; a matching reply still reaches
status.copy(match.groupdict()), which raises TypeError. -/
def zoneStatusManualAsyncGo (dc : DeviceConfig) (pc : ProtocolConfig) :
    List String → List (String × String) → AsyncState →
    Except PyErr (List (String × String)) × AsyncState
  | [], status, st => (.ok status, st)
  | command :: rest, status, st =>
    match pc.responses with
    | none => (.error .typeError, st)
    | some resp =>
      match resp command with
      | none => (.error .keyError, st)
      | some pat =>
        match _command pc command [] with
        | .error e => (.error e, st)
        | .ok cmdBytes =>
          match protocolSend cmdBytes st with
          | (.error e, st2) => (.error e, st2)
          | (.ok result, st2) =>
            match pat result with
            | some _ => (.error .typeError, st2)
            | none => zoneStatusManualAsyncGo dc pc rest status st2

/-- AmpControlAsync._zone_status_manual. -/
def AmpControlAsync.zone_status_manual (dc : DeviceConfig) (pc : ProtocolConfig)
    (st : AsyncState) : Except PyErr (List (String × String)) × AsyncState :=
  match pc.zone_status_commands with
  | none => (.error .typeError, st)
  | some cmds => zoneStatusManualAsyncGo dc pc cmds [] st

/-- The set_commands dictionary built inside AmpControlAsync.restore_zone,
mapping each restore-operation name to its command builder; a name outside the
table raises KeyError at set_commands[command]. -/
def setCommandsLookup (name : String) :
    Option (DeviceConfig → ProtocolConfig → PyVal → PyVal → Except PyErr String) :=
  if name = "power" then some _set_power_cmd
  else if name = "mute" then some _set_mute_cmd
  else if name = "volume" then some _set_volume_cmd
  else if name = "treble" then some _set_treble_cmd
  else if name = "bass" then some _set_bass_cmd
  else if name = "balance" then some _set_balance_cmd
  else if name = "source" then some _set_source_cmd
  else none

/-- Loop body of the suspend-based restore_zone: each step looks up the builder,
subscripts status[command] (KeyError when the captured status lacks the field),
builds and sends the set-command, and compares the reply with the declared
success acknowledgement — a mismatch only logs a warning and the loop continues. -/
def restoreLoopAsync (dc : DeviceConfig) (pc : ProtocolConfig) (zone : PyVal)
    (status : List (String × PyVal)) (success : Option String) :
    List String → AsyncState → Except PyErr Unit × AsyncState
  | [], st => (.ok (), st)
  | command :: rest, st =>
    match setCommandsLookup command with
    | none => (.error .keyError, st)
    | some builder =>
      match status.lookup command with
      | none => (.error .keyError, st)
      | some value =>
        match builder dc pc zone value with
        | .error e => (.error e, st)
        | .ok cmd =>
          match protocolSend cmd st with
          | (.error e, st2) => (.error e, st2)
          | (.ok _, st2) => restoreLoopAsync dc pc zone status success rest st2

/-- AmpControlAsync.restore_zone: status['zone'] is subscripted (KeyError when
absent), the extras table is fetched, and `extras.get('restore_zone', [])` is
tested — an absent or empty list logs that restore is unsupported and returns
normally; otherwise the restore loop replays each declared operation. -/
def AmpControlAsync.restore_zone (dc : DeviceConfig) (pc : ProtocolConfig)
    (status : List (String × PyVal)) (st : AsyncState) : Except PyErr Unit × AsyncState :=
  match status.lookup "zone" with
  | none => (.error .keyError, st)
  | some zone =>
    match pc.extras with
    | none => (.error .attributeError, st)
    | some ex =>
      match ex.restore_zone.getD [] with
      | [] => (.ok (), st)
      | c :: rest => restoreLoopAsync dc pc zone status ex.restore_success (c :: rest) st

/-- Python dict.update on an association list: existing keys are overwritten in
place, new keys are appended in override order. -/
def dictUpdate (d ov : List (String × Int)) : List (String × Int) :=
  d.map (fun kv =>
    match ov.lookup kv.1 with
    | some v => (kv.1, v)
    | none => kv)
  ++ ov.filter (fun kv => (d.lookup kv.1).isNone)

/-- Modelled from the spec: the registry lookup get_with_log (the `config`
module is not under src/) returns the stored descriptor value for the key, with
no copying. AmpControlSync.__init__ then runs serial_config.update(overrides)
on that shared dict when overrides are non-empty, so the in-place update lands
in the DEVICE_CONFIG entry itself; explicit state passing makes that visible as
the returned registry. -/
def ampControlSyncInitRegistry (registry : String → Option DeviceConfig)
    (amp_type : String) (overrides : List (String × Int)) : String → Option DeviceConfig :=
  match registry amp_type with
  | none => registry
  | some dc =>
    if overrides.isEmpty then registry
    else fun t =>
      if t = amp_type then some { dc with serial_config := dictUpdate dc.serial_config overrides }
      else registry t

/-- The zone-taking public operations of the controller facade. -/
inductive ZoneOp where
  | zoneStatus
  | setPower (power : Bool)
  | setMute (mute : Bool)
  | setVolume (volume : Int)
  | setTreble (treble : Int)
  | setBass (bass : Int)
  | setBalance (balance : Int)
  | setSource (source : Int)

/-- Runs a zone-taking operation of the blocking controller, discarding any
decoded status so all operations share one result type. -/
def runZoneOpSync (dc : DeviceConfig) (pc : ProtocolConfig) (op : ZoneOp) (zone : Int)
    (st : SyncState) : Except PyErr Unit × SyncState :=
  match op with
  | .zoneStatus =>
    match AmpControlSync.zone_status dc pc zone st with
    | (.error e, st2) => (.error e, st2)
    | (.ok _, st2) => (.ok (), st2)
  | .setPower p => AmpControlSync.set_power dc pc zone p st
  | .setMute m => AmpControlSync.set_mute dc pc zone m st
  | .setVolume v => AmpControlSync.set_volume dc pc zone v st
  | .setTreble v => AmpControlSync.set_treble dc pc zone v st
  | .setBass v => AmpControlSync.set_bass dc pc zone v st
  | .setBalance v => AmpControlSync.set_balance dc pc zone v st
  | .setSource s => AmpControlSync.set_source dc pc zone s st

/-- Runs a zone-taking operation of the suspend-based controller. -/
def runZoneOpAsync (dc : DeviceConfig) (pc : ProtocolConfig) (op : ZoneOp) (zone : Int)
    (st : AsyncState) : Except PyErr Unit × AsyncState :=
  match op with
  | .zoneStatus =>
    match AmpControlAsync.zone_status dc pc zone st with
    | (.error e, st2) => (.error e, st2)
    | (.ok _, st2) => (.ok (), st2)
  | .setPower p => AmpControlAsync.set_power dc pc zone p st
  | .setMute m => AmpControlAsync.set_mute dc pc zone m st
  | .setVolume v => AmpControlAsync.set_volume dc pc zone v st
  | .setTreble v => AmpControlAsync.set_treble dc pc zone v st
  | .setBass v => AmpControlAsync.set_bass dc pc zone v st
  | .setBalance v => AmpControlAsync.set_balance dc pc zone v st
  | .setSource s => AmpControlAsync.set_source dc pc zone s st

/-- Atomic actions of a caller running one synchronized exchange: acquire the
instance lock, transfer bytes on the transport, release the lock. -/
inductive LockAct where
  | acq
  | rel
  | io (b : Char)
  deriving DecidableEq

/-- Program shape produced by the `synchronized` wrapper (and identically by
`locked_coro`): the whole exchange body runs between one acquisition and one
release of the per-instance lock. -/
def mkProg (body : List Char) : List LockAct :=
  LockAct.acq :: body.map LockAct.io ++ [LockAct.rel]

/-- Interleaving state of two callers sharing one controller instance: who holds
the lock, each caller's remaining actions, and the transport events so far. -/
structure LockSys where
  lock : Option Bool
  rem : Bool → List LockAct
  trace : List (Bool × Char)

/-- Replaces one caller's remaining program. -/
def updRem (rem : Bool → List LockAct) (i : Bool) (v : List LockAct) :
    Bool → List LockAct :=
  fun j => if j = i then v else rem j

/-- One scheduler step: a caller may acquire the lock only when it is free;
transfers and the release are the caller's own next instruction (the lock
discipline is enforced by the program shape, exactly as the `with lock:` /
`async with lock:` blocks do). -/
inductive LockStep : LockSys → LockSys → Prop where
  | acquire (s : LockSys) (i : Bool) (rest : List LockAct)
      (hp : s.rem i = LockAct.acq :: rest) (hl : s.lock = none) :
      LockStep s { lock := some i, rem := updRem s.rem i rest, trace := s.trace }
  | release (s : LockSys) (i : Bool) (rest : List LockAct)
      (hp : s.rem i = LockAct.rel :: rest) :
      LockStep s { lock := none, rem := updRem s.rem i rest, trace := s.trace }
  | transfer (s : LockSys) (i : Bool) (b : Char) (rest : List LockAct)
      (hp : s.rem i = LockAct.io b :: rest) :
      LockStep s { lock := s.lock, rem := updRem s.rem i rest, trace := s.trace ++ [(i, b)] }

/-- Initial state: both callers are about to start one synchronized exchange,
the lock is free and nothing has touched the transport. -/
def initSys (body : Bool → List Char) : LockSys :=
  { lock := none, rem := fun i => mkProg (body i), trace := [] }

/-- A transport event sequence with no interleaving: all events of one caller,
then all events of the other. -/
def Grouped (l : List Bool) : Prop :=
  ∃ a b x, l = List.replicate a x ++ List.replicate b (!x)

/-- Concrete example device descriptor (xantech-style): zones 11 and 12,
sources 1 and 2, maxima 38/14/14/20, default baudrate 9600. -/
def dcA : DeviceConfig :=
  { zones := [.int 11, .int 12]
    sources := [.int 1, .int 2]
    max_volume := 38
    max_treble := 14
    max_bass := 14
    max_balance := 20
    serial_config := [("baudrate", 9600)]
    zone_status_skip := none }

/-- Concrete example response pattern: matches exactly the reply "OK1" and
yields a power group, like a one-field zone-status regex. -/
def patA : Pattern :=
  fun s => if s = "OK1" then some [("power", "1")] else none

/-- Concrete example responses table: one pattern for the "stat1" step. -/
def respMapA : String → Option Pattern :=
  fun c => if c = "stat1" then some patA else none

/-- Concrete example command-template table. -/
def cmdMapA : String → Option Template :=
  fun c =>
    if c = "zone_status" then some [.lit "?", .field "zone"]
    else if c = "power_on" then some [.lit "!", .field "zone", .lit "PR1"]
    else if c = "power_off" then some [.lit "!", .field "zone", .lit "PR0"]
    else if c = "mute_on" then some [.lit "!", .field "zone", .lit "MU1"]
    else if c = "mute_off" then some [.lit "!", .field "zone", .lit "MU0"]
    else if c = "set_volume" then some [.lit "!", .field "zone", .lit "VO", .field "volume"]
    else if c = "set_treble" then some [.lit "!", .field "zone", .lit "TR", .field "treble"]
    else if c = "set_bass" then some [.lit "!", .field "zone", .lit "BS", .field "bass"]
    else if c = "set_balance" then some [.lit "!", .field "zone", .lit "BA", .field "balance"]
    else if c = "set_source" then some [.lit "!", .field "zone", .lit "SS", .field "source"]
    else if c = "stat1" then some [.lit "?STAT"]
    else none

/-- Concrete example protocol descriptor: separator "+", terminators carriage
return, restore list declaring power then volume. -/
def pcA : ProtocolConfig :=
  { command_eol := some "\x0d"
    command_separator := some "+"
    response_eol := some "\x0d"
    commands := some cmdMapA
    responses := some respMapA
    status_translation := none
    zone_status_pattern := some patA
    extras := some { restore_success := some "OK", restore_zone := some ["power", "volume"] }
    zone_status_commands := some ["stat1"] }

/-- Variant of the example protocol whose extras declare no restore list. -/
def pcNoRestore : ProtocolConfig :=
  { pcA with extras := some { restore_success := some "OK", restore_zone := none } }

/-- Variant of the example protocol whose extras declare an empty restore list. -/
def pcRestoreEmpty : ProtocolConfig :=
  { pcA with extras := some { restore_success := some "OK", restore_zone := some [] } }

/-- Variant of the example protocol whose extras declare a one-step restore list. -/
def pcRestorePower : ProtocolConfig :=
  { pcA with extras := some { restore_success := some "OK", restore_zone := some ["power"] } }

/-- Concrete captured status with all fields needed by the example restore lists. -/
def statusA : List (String × PyVal) :=
  [("zone", .int 11), ("power", .bool true), ("volume", .int 20)]

/-- Concrete captured status lacking the volume field. -/
def statusNoVol : List (String × PyVal) :=
  [("zone", .int 11), ("power", .bool true)]

/-- Unfolds the suspend-based restore_zone to its replay loop when a non-empty
restore list is declared. -/
lemma restore_zone_async_run (dc : DeviceConfig) (pc : ProtocolConfig)
    (status : List (String × PyVal)) (ast : AsyncState) (ex : ExtrasConfig) (zone : PyVal)
    (l : List String) (hz : status.lookup "zone" = some zone) (hx : pc.extras = some ex)
    (hr : ex.restore_zone = some l) (hne : l ≠ []) :
    AmpControlAsync.restore_zone dc pc status ast =
      restoreLoopAsync dc pc zone status ex.restore_success l ast := by
  cases l with
  | nil => exact absurd rfl hne
  | cons c rest => simp [AmpControlAsync.restore_zone, hz, hx, hr]

/-- The replay loop processes an appended list sequentially, stopping at the
first raising step. -/
lemma restoreLoopAsync_append (dc : DeviceConfig) (pc : ProtocolConfig) (zone : PyVal)
    (status : List (String × PyVal)) (success : Option String) (pre rest : List String) :
    ∀ ast : AsyncState,
      restoreLoopAsync dc pc zone status success (pre ++ rest) ast =
        match restoreLoopAsync dc pc zone status success pre ast with
        | (.ok _, st2) => restoreLoopAsync dc pc zone status success rest st2
        | (.error e, st2) => (.error e, st2) := by
  induction pre with
  | nil => intro ast; simp [restoreLoopAsync]
  | cons c pre ih =>
    intro ast
    cases hsc : setCommandsLookup c with
    | none => simp [restoreLoopAsync, hsc]
    | some builder =>
      cases hv : status.lookup c with
      | none => simp [restoreLoopAsync, hsc, hv]
      | some value =>
        cases hb : builder dc pc zone value with
        | error e => simp [restoreLoopAsync, hsc, hv, hb]
        | ok cmd =>
          rcases hs : protocolSend cmd ast with ⟨r, st2⟩
          cases r with
          | error e => simp [restoreLoopAsync, hsc, hv, hb, hs]
          | ok s =>
            simp only [List.cons_append, restoreLoopAsync, hsc, hv, hb, hs]
            exact ih st2

/-- A replay step whose operation value is absent from the captured status
raises KeyError without touching the transport. -/
lemma restoreLoopAsync_missing (dc : DeviceConfig) (pc : ProtocolConfig) (zone : PyVal)
    (status : List (String × PyVal)) (success : Option String) (c : String)
    (post : List String) (st : AsyncState) (hc : status.lookup c = none) :
    restoreLoopAsync dc pc zone status success (c :: post) st = (.error .keyError, st) := by
  cases hsc : setCommandsLookup c <;> simp [restoreLoopAsync, hsc, hc]

/-- C1: the status decoder is claimed to log and return absent on every
non-empty reply that does not match the zone-status pattern, never raising.
The code instead evaluates match.groupdict() before its own not-match check, so
such a reply raises AttributeError; only the empty reply returns absent. This
theorem evaluates the embedded decoder at the failing input. -/
theorem from_string_unmatched_raises :
    ZoneStatus.from_string pcA "garbage" = .error .attributeError
  ∧ ZoneStatus.from_string pcA "" = .ok none := by
  exact ⟨by decide, by decide⟩

/-- C2 (counterexample): with extras declaring no restore-operation list, the
blocking restore_zone raises TypeError (it iterates None) rather than logging
and returning normally as claimed for both variants. -/
theorem restore_zone_no_list_sync_raises :
    AmpControlSync.restore_zone dcA pcNoRestore statusA { stream := [], writes := [] } =
      (.error .typeError, { stream := [], writes := [] }) := by
  decide

/-- C2 (amended): with extras declaring no restore-operation list, the
suspend-based restore_zone logs and returns normally without transport traffic,
while the blocking variant raises TypeError and performs no transport write. -/
theorem restore_zone_no_list_amended (dc : DeviceConfig) (pc : ProtocolConfig)
    (status : List (String × PyVal)) (st : SyncState) (ast : AsyncState)
    (ex : ExtrasConfig) (zone : PyVal) (hz : status.lookup "zone" = some zone)
    (hx : pc.extras = some ex) (hr : ex.restore_zone = none) :
    AmpControlAsync.restore_zone dc pc status ast = (.ok (), ast)
  ∧ AmpControlSync.restore_zone dc pc status st = (.error .typeError, st) := by
  constructor
  · simp [AmpControlAsync.restore_zone, hz, hx, hr]
  · simp [AmpControlSync.restore_zone, hz, hx, hr]

/-- C2 witness. -/
theorem restore_zone_no_list_amended_witness :
    AmpControlAsync.restore_zone dcA pcNoRestore statusA { replies := [], writes := [] } =
      (.ok (), { replies := [], writes := [] })
  ∧ AmpControlSync.restore_zone dcA pcNoRestore statusA { stream := [], writes := [] } =
      (.error .typeError, { stream := [], writes := [] }) :=
  restore_zone_no_list_amended dcA pcNoRestore statusA
    { stream := [], writes := [] } { replies := [], writes := [] }
    { restore_success := some "OK", restore_zone := none } (.int 11)
    (by decide) rfl rfl

/-- C3 (counterexample): for the same amp type, captured status and transport
replies, the two restore_zone variants do not have an equivalent contract: with
a declared one-step restore list the blocking variant raises TypeError having
written nothing (each restore entry, a descriptor string, is called as a
function), while the suspend-based variant succeeds and writes the power
command. -/
theorem restore_zone_variants_diverge :
    AmpControlSync.restore_zone dcA pcRestorePower statusA { stream := "OK\x0d".data, writes := [] } =
      (.error .typeError, { stream := "OK\x0d".data, writes := [] })
  ∧ AmpControlAsync.restore_zone dcA pcRestorePower statusA { replies := ["OK"], writes := [] } =
      (.ok (), { replies := [], writes := ["!11PR1+\x0d"] }) := by
  exact ⟨by decide, by decide⟩

/-- C3 (amended): the two variants agree only when the declared
restore-operation list is empty — both return normally and send nothing; any
non-empty list makes the blocking variant raise TypeError before its first
transport write, so the claimed equivalence fails beyond this case. -/
theorem restore_zone_variants_agree_on_empty (dc : DeviceConfig) (pc : ProtocolConfig)
    (status : List (String × PyVal)) (st : SyncState) (ast : AsyncState)
    (ex : ExtrasConfig) (zone : PyVal) (hz : status.lookup "zone" = some zone)
    (hx : pc.extras = some ex) (hr : ex.restore_zone = some []) :
    AmpControlSync.restore_zone dc pc status st = (.ok (), st)
  ∧ AmpControlAsync.restore_zone dc pc status ast = (.ok (), ast) := by
  constructor
  · simp [AmpControlSync.restore_zone, hz, hx, hr]
  · simp [AmpControlAsync.restore_zone, hz, hx, hr]

/-- C3 witness. -/
theorem restore_zone_variants_agree_on_empty_witness :
    AmpControlSync.restore_zone dcA pcRestoreEmpty statusA { stream := [], writes := [] } =
      (.ok (), { stream := [], writes := [] })
  ∧ AmpControlAsync.restore_zone dcA pcRestoreEmpty statusA { replies := [], writes := [] } =
      (.ok (), { replies := [], writes := [] }) :=
  restore_zone_variants_agree_on_empty dcA pcRestoreEmpty statusA
    { stream := [], writes := [] } { replies := [], writes := [] }
    { restore_success := some "OK", restore_zone := some [] } (.int 11)
    (by decide) rfl rfl

/-- C4: descriptors are claimed never mutated after registry initialization,
but constructing the blocking controller with serial-config overrides runs
dict.update on the shared DEVICE_CONFIG serial-config dict: afterwards the
registry entry itself carries the override. -/
theorem init_overrides_mutate_registry :
    (ampControlSyncInitRegistry (fun t => if t = "monoprice6" then some dcA else none)
        "monoprice6" [("baudrate", 115200)]) "monoprice6" ≠
      (fun t => if t = "monoprice6" then some dcA else none) "monoprice6"
  ∧ ((ampControlSyncInitRegistry (fun t => if t = "monoprice6" then some dcA else none)
        "monoprice6" [("baudrate", 115200)]) "monoprice6").map DeviceConfig.serial_config =
      some [("baudrate", 115200)] := by
  exact ⟨by decide, by decide⟩

/-- C5: for every integer input, the encoded set command for volume, treble,
bass and balance carries the value clamped into [0, declared maximum]. -/
theorem set_cmds_carry_clamped_value (dc : DeviceConfig) (pc : ProtocolConfig)
    (zone : PyVal) (v : Int) (hz : zone ∈ dc.zones) :
    _set_volume_cmd dc pc zone (.int v) =
      _command pc "set_volume"
        [("zone", pyStr zone), ("volume", pyStr (.int (clampI v dc.max_volume)))]
  ∧ _set_treble_cmd dc pc zone (.int v) =
      _command pc "set_treble"
        [("zone", pyStr zone), ("treble", pyStr (.int (clampI v dc.max_treble)))]
  ∧ _set_bass_cmd dc pc zone (.int v) =
      _command pc "set_bass"
        [("zone", pyStr zone), ("bass", pyStr (.int (clampI v dc.max_bass)))]
  ∧ _set_balance_cmd dc pc zone (.int v) =
      _command pc "set_balance"
        [("zone", pyStr zone), ("balance", pyStr (.int (clampI v dc.max_balance)))] := by
  refine ⟨?_, ?_, ?_, ?_⟩ <;>
    simp [_set_volume_cmd, _set_treble_cmd, _set_bass_cmd, _set_balance_cmd, hz, pyToIntNum]

/-- C5 witness: volume 50 on a device with maximum 38 encodes the clamped 38. -/
theorem set_cmds_carry_clamped_value_witness :
    _set_volume_cmd dcA pcA (.int 11) (.int 50) =
      _command pcA "set_volume"
        [("zone", pyStr (.int 11)), ("volume", pyStr (.int (clampI 50 dcA.max_volume)))] :=
  (set_cmds_carry_clamped_value dcA pcA (.int 11) 50 (by decide)).1

/-- C6: a zone outside the declared zone set makes every zone-taking operation
of either controller variant fail with the encoding assertion and leave the
transport state untouched (no write occurs); likewise set_source with a source
outside the declared source set. -/
theorem invalid_zone_or_source_blocks_io (dc : DeviceConfig) (pc : ProtocolConfig)
    (zone : Int) (st : SyncState) (ast : AsyncState) :
    (PyVal.int zone ∉ dc.zones →
      ∀ op : ZoneOp,
        runZoneOpSync dc pc op zone st = (.error .assertionError, st)
      ∧ runZoneOpAsync dc pc op zone ast = (.error .assertionError, ast))
  ∧ (∀ source : Int, PyVal.int zone ∈ dc.zones → PyVal.int source ∉ dc.sources →
        runZoneOpSync dc pc (.setSource source) zone st = (.error .assertionError, st)
      ∧ runZoneOpAsync dc pc (.setSource source) zone ast = (.error .assertionError, ast)) := by
  constructor
  · intro h op
    cases op <;>
      exact ⟨by simp [runZoneOpSync, AmpControlSync.zone_status, AmpControlSync.set_power,
          AmpControlSync.set_mute, AmpControlSync.set_volume, AmpControlSync.set_treble,
          AmpControlSync.set_bass, AmpControlSync.set_balance, AmpControlSync.set_source,
          _zone_status_cmd, _set_power_cmd, _set_mute_cmd, _set_volume_cmd, _set_treble_cmd,
          _set_bass_cmd, _set_balance_cmd, _set_source_cmd, h],
        by simp [runZoneOpAsync, AmpControlAsync.zone_status, AmpControlAsync.set_power,
          AmpControlAsync.set_mute, AmpControlAsync.set_volume, AmpControlAsync.set_treble,
          AmpControlAsync.set_bass, AmpControlAsync.set_balance, AmpControlAsync.set_source,
          _zone_status_cmd, _set_power_cmd, _set_mute_cmd, _set_volume_cmd, _set_treble_cmd,
          _set_bass_cmd, _set_balance_cmd, _set_source_cmd, h]⟩
  · intro source hzin hsrc
    exact ⟨by simp [runZoneOpSync, AmpControlSync.set_source, _set_source_cmd, hzin, hsrc],
      by simp [runZoneOpAsync, AmpControlAsync.set_source, _set_source_cmd, hzin, hsrc]⟩

/-- C6 witness: zone 99 is rejected by set_volume before any write, and source
9 is rejected by set_source on a valid zone. -/
theorem invalid_zone_or_source_blocks_io_witness :
    (runZoneOpSync dcA pcA (.setVolume 5) 99 { stream := [], writes := [] } =
        (.error .assertionError, { stream := [], writes := [] })
      ∧ runZoneOpAsync dcA pcA (.setVolume 5) 99 { replies := [], writes := [] } =
        (.error .assertionError, { replies := [], writes := [] }))
  ∧ (runZoneOpSync dcA pcA (.setSource 9) 11 { stream := [], writes := [] } =
        (.error .assertionError, { stream := [], writes := [] })
      ∧ runZoneOpAsync dcA pcA (.setSource 9) 11 { replies := [], writes := [] } =
        (.error .assertionError, { replies := [], writes := [] })) :=
  ⟨(invalid_zone_or_source_blocks_io dcA pcA 99 { stream := [], writes := [] }
      { replies := [], writes := [] }).1 (by decide) (.setVolume 5),
   (invalid_zone_or_source_blocks_io dcA pcA 11 { stream := [], writes := [] }
      { replies := [], writes := [] }).2 9 (by decide) (by decide)⟩

/-- An empty accumulator never satisfies the framer's stop test, since its
length cannot exceed the skip count. -/
lemma stopCond_nil (eol : List Char) (skip : Nat) : stopCond eol skip [] = false := by
  simp [stopCond]

/-- Soundness and minimality of the receive loop, generalized over the starting
accumulator: a successful read consumed a non-empty chunk of the stream, the
returned reply satisfies the stop test, and no shorter tested accumulator did. -/
lemma readLoop_ok_spec (eol : List Char) (skip : Nat) :
    ∀ (stream acc r rest : List Char),
      readLoop eol skip stream acc = .ok (r, rest) →
      (∃ q, q ≠ [] ∧ stream = q ++ rest ∧ r = acc ++ q) ∧ stopCond eol skip r = true ∧
      ∀ q2, q2 ≠ [] → (acc ++ q2) <+: r → acc ++ q2 ≠ r →
        stopCond eol skip (acc ++ q2) = false := by
  intro stream
  induction stream with
  | nil =>
    intro acc r rest h
    exact absurd h (by simp [readLoop])
  | cons ch stream ih =>
    intro acc r rest h
    by_cases hstop : stopCond eol skip (acc ++ [ch]) = true
    · have h2 : readLoop eol skip (ch :: stream) acc = .ok (acc ++ [ch], stream) := by
        simp [readLoop, hstop]
      rw [h2] at h
      obtain ⟨hr, hrest⟩ : acc ++ [ch] = r ∧ stream = rest := by
        have := Except.ok.inj h
        exact ⟨congrArg Prod.fst this, congrArg Prod.snd this⟩
      refine ⟨⟨[ch], by simp, by rw [← hrest]; rfl, hr.symm⟩, by rw [← hr]; exact hstop, ?_⟩
      intro q2 hq2 hpre hne
      obtain ⟨t, ht⟩ := hpre
      rw [← hr] at ht
      have ht3 : acc ++ (q2 ++ t) = acc ++ [ch] := by
        rw [← List.append_assoc]; exact ht
      have ht2 : q2 ++ t = [ch] := List.append_cancel_left ht3
      cases q2 with
      | nil => exact absurd rfl hq2
      | cons c2 q3 =>
        have hc2 : c2 = ch ∧ q3 ++ t = [] := by simpa using ht2
        have hq3 : q3 = [] := (List.append_eq_nil.mp hc2.2).1
        exact absurd (by rw [hc2.1, hq3, hr]) hne
    · have h2 : readLoop eol skip (ch :: stream) acc = readLoop eol skip stream (acc ++ [ch]) := by
        simp [readLoop, hstop]
      rw [h2] at h
      obtain ⟨⟨q, hqne, hstream, hr⟩, hsc, hmin⟩ := ih (acc ++ [ch]) r rest h
      refine ⟨⟨ch :: q, by simp, by simp [hstream], by simp [hr]⟩, hsc, ?_⟩
      intro q2 hq2 hpre hne
      cases q2 with
      | nil => exact absurd rfl hq2
      | cons c2 q3 =>
        obtain ⟨t, ht⟩ := hpre
        rw [hr] at ht
        have ht3 : acc ++ (c2 :: (q3 ++ t)) = acc ++ (ch :: q) := by
          simpa [List.append_assoc] using ht
        have ht2 : c2 :: (q3 ++ t) = ch :: q := List.append_cancel_left ht3
        have hc2 : c2 = ch := (List.cons.injEq _ _ _ _ ▸ ht2).1
        cases q3 with
        | nil =>
          have : acc ++ [c2] = acc ++ [ch] := by rw [hc2]
          rw [this]
          exact Bool.not_eq_true _ ▸ hstop
        | cons d q4 =>
          have hsub : acc ++ c2 :: d :: q4 = (acc ++ [ch]) ++ (d :: q4) := by
            simp [hc2, List.append_assoc]
          rw [hsub]
          apply hmin (d :: q4) (by simp)
          · refine ⟨t, ?_⟩
            rw [hr, List.append_assoc]
            have := (List.cons.injEq _ _ _ _ ▸ ht2).2
            simp [this]
          · rw [← hsub]; exact hne

/-- Completeness of the receive loop: if some non-empty stream prefix extends
the accumulator to a stopping point, the loop returns successfully. -/
lemma readLoop_complete (eol : List Char) (skip : Nat) :
    ∀ (stream acc : List Char),
      (∃ q, q ≠ [] ∧ q <+: stream ∧ stopCond eol skip (acc ++ q) = true) →
      ∃ r rest, readLoop eol skip stream acc = .ok (r, rest) := by
  intro stream
  induction stream with
  | nil =>
    intro acc ⟨q, hq, hpre, _⟩
    obtain ⟨t, ht⟩ := hpre
    cases q with
    | nil => exact absurd rfl hq
    | cons c q2 => exact absurd ht (by simp)
  | cons ch stream ih =>
    intro acc ⟨q, hq, hpre, hsc⟩
    by_cases hstop : stopCond eol skip (acc ++ [ch]) = true
    · exact ⟨acc ++ [ch], stream, by simp [readLoop, hstop]⟩
    · obtain ⟨t, ht⟩ := hpre
      cases q with
      | nil => exact absurd rfl hq
      | cons c2 q2 =>
        have hc2 : c2 = ch ∧ q2 ++ t = stream := by simpa using ht
        cases q2 with
        | nil =>
          rw [hc2.1] at hsc
          exact absurd hsc hstop
        | cons d q3 =>
          have hrec : ∃ r rest, readLoop eol skip stream (acc ++ [ch]) = .ok (r, rest) := by
            apply ih (acc ++ [ch])
            refine ⟨d :: q3, by simp, ⟨t, hc2.2⟩, ?_⟩
            have : (acc ++ [ch]) ++ d :: q3 = acc ++ c2 :: d :: q3 := by
              simp [hc2.1, List.append_assoc]
            rw [this]
            exact hsc
          obtain ⟨r, rest, hrr⟩ := hrec
          exact ⟨r, rest, by simp [readLoop, hstop, hrr]⟩

/-- C7: the response framer returns successfully exactly at the first point
where the accumulator's length exceeds the skip count and its trailing bytes
equal the response terminator: a successful read is a split of the stream whose
reply satisfies the stop test (in particular its length exceeds skip, so no
reply of length skip or less is ever returned) while no proper prefix of the
reply satisfies it, and whenever some stream prefix satisfies the stop test the
loop does return successfully. -/
theorem framer_stops_at_first_terminator (eol : List Char) (skip : Nat) (stream : List Char) :
    (∀ r rest, readLoop eol skip stream [] = .ok (r, rest) →
      stream = r ++ rest ∧ stopCond eol skip r = true ∧ skip < r.length ∧
      ∀ p, p <+: r → p ≠ r → stopCond eol skip p = false)
  ∧ ((∃ p, p <+: stream ∧ stopCond eol skip p = true) →
      ∃ r rest, readLoop eol skip stream [] = .ok (r, rest)) := by
  constructor
  · intro r rest h
    obtain ⟨⟨q, hq, hstream, hr⟩, hsc, hmin⟩ := readLoop_ok_spec eol skip stream [] r rest h
    have hr2 : r = q := by simpa using hr
    have hlen : skip < r.length := by
      have := hsc
      simp only [stopCond, Bool.and_eq_true, decide_eq_true_eq] at this
      exact this.1
    refine ⟨by rw [hstream, hr2], hsc, hlen, ?_⟩
    intro p hp hne
    by_cases hp0 : p = []
    · rw [hp0]; exact stopCond_nil eol skip
    · have := hmin p hp0 (by simpa using hp) (by simpa using hne)
      simpa using this
  · intro ⟨p, hp, hsc⟩
    have hpne : p ≠ [] := by
      intro h0
      rw [h0, stopCond_nil] at hsc
      exact Bool.false_ne_true hsc
    exact readLoop_complete eol skip stream [] ⟨p, hpne, hp, by simpa using hsc⟩

/-- C7 witness: on the stream "AB\x0d" with terminator "\x0d" and skip 0, the
framer returns the whole line, which satisfies the stop test while none of its
proper prefixes do. -/
theorem framer_stops_at_first_terminator_witness :
    "AB\x0d".data = ['A', 'B', '\x0d'] ++ [] ∧
    stopCond ['\x0d'] 0 ['A', 'B', '\x0d'] = true ∧
    0 < (['A', 'B', '\x0d'] : List Char).length ∧
    ∀ p, p <+: ['A', 'B', '\x0d'] → p ≠ ['A', 'B', '\x0d'] →
      stopCond ['\x0d'] 0 p = false :=
  (framer_stops_at_first_terminator ['\x0d'] 0 "AB\x0d".data).1
    ['A', 'B', '\x0d'] [] (by decide)

/-- C8: the multi-step manual status assembly is claimed (as the spec's
corrected intent) to merge each matched step's parsed fields into the
accumulating record. The code never merges: the blocking variant passes the
command name in the zone position and dies on the zone assertion before its
first exchange, and the suspend-based variant reaches
status.copy(match.groupdict()) on a matching reply, which raises TypeError
because dict.copy takes no arguments. This theorem evaluates both variants. -/
theorem zone_status_manual_never_merges :
    AmpControlSync.zone_status_manual dcA pcA { stream := [], writes := [] } =
      (.error .assertionError, { stream := [], writes := [] })
  ∧ AmpControlAsync.zone_status_manual dcA pcA { replies := ["OK1"], writes := [] } =
      (.error .typeError, { replies := [], writes := ["?STAT+\x0d"] }) := by
  exact ⟨by decide, by decide⟩

/-- Two distinct booleans are each the negation of the other. -/
lemma bool_eq_not_of_ne (x i : Bool) (h : x ≠ i) : x = !i := by
  cases x <;> cases i <;> simp_all

/-- A list of booleans avoiding one value is constant at the other value. -/
lemma eq_replicate_not (i : Bool) (l : List Bool) (h : i ∉ l) :
    l = List.replicate l.length (!i) := by
  apply List.eq_replicate_length.mpr
  intro b hb
  exact bool_eq_not_of_ne b i (fun hbi => h (hbi ▸ hb))

/-- Dropping one more element after a cons-shaped drop yields the tail. -/
lemma drop_cons_succ {α : Type} : ∀ (l : List α) (k : Nat) (a : α) (t : List α),
    l.drop k = a :: t → l.drop (k + 1) = t := by
  intro l
  induction l with
  | nil => intro k a t h; simp at h
  | cons x xs ih =>
    intro k a t h
    cases k with
    | zero =>
      simp only [List.drop_zero] at h
      cases h
      rfl
    | succ k2 =>
      simp only [List.drop_succ_cons] at h ⊢
      exact ih k2 a t h

/-- No suffix of the io-mapped body starts with the release action. -/
lemma drop_map_io_ne_rel (body : List Char) (k : Nat) (rest : List LockAct)
    (h : (body.map LockAct.io).drop k = LockAct.rel :: rest) : False := by
  have hmem : LockAct.rel ∈ (body.map LockAct.io).drop k := by
    rw [h]; exact List.mem_cons_self _ _
  have hmem2 : LockAct.rel ∈ body.map LockAct.io := List.mem_of_mem_drop hmem
  obtain ⟨b, _, hb⟩ := List.mem_map.mp hmem2
  exact absurd hb (by simp)

/-- Phase of one caller inside the interleaving invariant: the caller has not
yet acquired the lock (and has produced no transport event), or holds the lock
mid-exchange (its events forming the current trailing run of the trace), or has
finished its exchange. -/
def CallerInv (body : Bool → List Char) (s : LockSys) (i : Bool) : Prop :=
  (s.rem i = mkProg (body i) ∧ i ∉ s.trace.map Prod.fst)
  ∨ (∃ k, s.rem i = ((body i).map LockAct.io).drop k ++ [LockAct.rel] ∧ s.lock = some i
      ∧ ∃ pre m, s.trace.map Prod.fst = pre ++ List.replicate m i ∧ i ∉ pre)
  ∨ s.rem i = []

/-- Interleaving invariant: the trace is grouped and every caller is in a
consistent phase. -/
def SysInv (body : Bool → List Char) (s : LockSys) : Prop :=
  Grouped (s.trace.map Prod.fst) ∧ ∀ i, CallerInv body s i

/-- The initial state satisfies the interleaving invariant. -/
lemma sysInv_init (body : Bool → List Char) : SysInv body (initSys body) := by
  constructor
  · exact ⟨0, 0, false, by simp [initSys]⟩
  · intro i
    exact Or.inl ⟨rfl, by simp [initSys]⟩

/-- Every scheduler step preserves the interleaving invariant. -/
lemma sysInv_step (body : Bool → List Char) (s t : LockSys)
    (hinv : SysInv body s) (hstep : LockStep s t) : SysInv body t := by
  obtain ⟨hg, hc⟩ := hinv
  cases hstep with
  | acquire i rest hp hl =>
    rcases hc i with ⟨hrem, htr⟩ | ⟨k, hrem, hlock, _⟩ | hrem
    · have hrest : rest = (body i).map LockAct.io ++ [LockAct.rel] := by
        rw [hrem] at hp
        simp only [mkProg, List.cons_append] at hp
        injection hp with h1 h2
        exact h2.symm
      refine ⟨hg, ?_⟩
      intro j
      by_cases hj : j = i
      · subst hj
        refine Or.inr (Or.inl ⟨0, ?_, rfl, s.trace.map Prod.fst, 0, by simp, htr⟩)
        simp [updRem, hrest]
      · rcases hc j with ⟨h1, h2⟩ | ⟨k, h1, h2, h3⟩ | h1
        · exact Or.inl ⟨by simpa [updRem, hj] using h1, h2⟩
        · rw [hl] at h2
          exact absurd h2 (by simp)
        · exact Or.inr (Or.inr (by simpa [updRem, hj] using h1))
    · rw [hl] at hlock
      exact absurd hlock (by simp)
    · rw [hrem] at hp
      exact absurd hp (by simp)
  | release i rest hp =>
    rcases hc i with ⟨hrem, htr⟩ | ⟨k, hrem, hlock, _⟩ | hrem
    · rw [hrem] at hp
      simp only [mkProg, List.cons_append] at hp
      exact absurd (List.cons.injEq .. ▸ hp).1 (fun hx => LockAct.noConfusion hx)
    · have hrest : rest = [] := by
        rw [hrem] at hp
        cases hdk : ((body i).map LockAct.io).drop k with
        | nil =>
          rw [hdk] at hp
          simp only [List.nil_append] at hp
          exact ((List.cons.injEq .. ▸ hp).2).symm
        | cons c u =>
          rw [hdk] at hp
          simp only [List.cons_append] at hp
          have hc2 : c = LockAct.rel := (List.cons.injEq .. ▸ hp).1
          exact absurd (hc2 ▸ hdk) (fun h4 => drop_map_io_ne_rel (body i) k u h4)
      refine ⟨hg, ?_⟩
      intro j
      by_cases hj : j = i
      · subst hj
        exact Or.inr (Or.inr (by simp [updRem, hrest]))
      · rcases hc j with ⟨h1, h2⟩ | ⟨k2, h1, h2, h3⟩ | h1
        · exact Or.inl ⟨by simpa [updRem, hj] using h1, h2⟩
        · rw [hlock] at h2
          exact absurd (Option.some.inj h2).symm hj
        · exact Or.inr (Or.inr (by simpa [updRem, hj] using h1))
    · rw [hrem] at hp
      exact absurd hp (by simp)
  | transfer i b rest hp =>
    rcases hc i with ⟨hrem, htr⟩ | ⟨k, hrem, hlock, pre, m, hids, hpre⟩ | hrem
    · rw [hrem] at hp
      simp only [mkProg, List.cons_append] at hp
      exact absurd (List.cons.injEq .. ▸ hp).1 (fun hx => LockAct.noConfusion hx)
    · rw [hrem] at hp
      cases hdk : ((body i).map LockAct.io).drop k with
      | nil =>
        rw [hdk] at hp
        simp only [List.nil_append] at hp
        exact absurd (List.cons.injEq .. ▸ hp).1 (fun hx => LockAct.noConfusion hx)
      | cons c u =>
        rw [hdk] at hp
        simp only [List.cons_append] at hp
        have h2 : u ++ [LockAct.rel] = rest := (List.cons.injEq .. ▸ hp).2
        have hu : ((body i).map LockAct.io).drop (k + 1) = u :=
          drop_cons_succ _ k c u hdk
        constructor
        · have hpre2 : pre = List.replicate pre.length (!i) := eq_replicate_not i pre hpre
          refine ⟨pre.length, m + 1, !i, ?_⟩
          have : (s.trace ++ [(i, b)]).map Prod.fst =
              pre ++ List.replicate (m + 1) i := by
            simp only [List.map_append, hids, List.map_cons, List.map_nil,
              List.replicate_succ', List.append_assoc]
          rw [this, Bool.not_not, ← hpre2]
        · intro j
          by_cases hj : j = i
          · subst hj
            refine Or.inr (Or.inl ⟨k + 1, ?_, hlock, pre, m + 1, ?_, hpre⟩)
            · simp [updRem, h2.symm, hu]
            · simp only [List.map_append, hids, List.map_cons, List.map_nil,
                List.replicate_succ', List.append_assoc]
          · rcases hc j with ⟨hr1, hr2⟩ | ⟨k2, hr1, hr2, hr3⟩ | hr1
            · refine Or.inl ⟨by simpa [updRem, hj] using hr1, ?_⟩
              simp only [List.map_append, List.map_cons, List.map_nil]
              intro hmem
              rcases List.mem_append.mp hmem with hmem2 | hmem2
              · exact hr2 hmem2
              · simp at hmem2
                exact hj hmem2
            · rw [hlock] at hr2
              exact absurd (Option.some.inj hr2).symm hj
            · exact Or.inr (Or.inr (by simpa [updRem, hj] using hr1))
    · rw [hrem] at hp
      exact absurd hp (by simp)

/-- C9: the per-instance lock wrapped around every exchange (`synchronized` in
the blocking variant, `locked_coro` in the suspend-based one — both produce the
same acquire/body/release program shape) serializes concurrent callers: in
every state reachable from two callers each running one exchange against the
same controller instance, the transport trace is grouped — one caller's bytes
lie entirely before the other's, never interleaved. -/
theorem exchanges_never_interleave (body : Bool → List Char) (s : LockSys)
    (h : Relation.ReflTransGen LockStep (initSys body) s) :
    Grouped (s.trace.map Prod.fst) := by
  have hinv : SysInv body s := by
    induction h with
    | refl => exact sysInv_init body
    | tail hab hbc ih => exact sysInv_step body _ _ ih hbc
  exact hinv.1

/-- Bodies of two concrete callers used by the serialization witness. -/
def bodyW : Bool → List Char := fun i => if i then ['B'] else ['A']

/-- C9 witness: a complete run in which caller false performs its exchange and
then caller true performs its own yields the grouped trace. -/
theorem exchanges_never_interleave_witness :
    Grouped (([(false, 'A'), (true, 'B')] : List (Bool × Char)).map Prod.fst) :=
  exchanges_never_interleave bodyW _
    (Relation.ReflTransGen.tail
      (Relation.ReflTransGen.tail
        (Relation.ReflTransGen.tail
          (Relation.ReflTransGen.tail
            (Relation.ReflTransGen.tail
              (Relation.ReflTransGen.tail Relation.ReflTransGen.refl
                (LockStep.acquire _ false [LockAct.io 'A', LockAct.rel] rfl rfl))
              (LockStep.transfer _ false 'A' [LockAct.rel] rfl))
            (LockStep.release _ false [] rfl))
          (LockStep.acquire _ true [LockAct.io 'B', LockAct.rel] rfl rfl))
        (LockStep.transfer _ true 'B' [LockAct.rel] rfl))
      (LockStep.release _ true [] rfl))

/-- C10: in the suspend-based restore_zone, a captured status lacking the
'zone' key raises KeyError before any transport traffic; a status lacking the
value of a declared restore operation raises KeyError at that step and aborts
the remaining steps, the transport state frozen at the successfully replayed
prefix. -/
theorem restore_zone_missing_field_aborts (dc : DeviceConfig) (pc : ProtocolConfig)
    (status : List (String × PyVal)) (ast : AsyncState) (ex : ExtrasConfig)
    (hx : pc.extras = some ex) :
    (status.lookup "zone" = none →
      AmpControlAsync.restore_zone dc pc status ast = (.error .keyError, ast))
  ∧ (∀ (zone : PyVal) (pre post : List String) (c : String) (st2 : AsyncState),
      status.lookup "zone" = some zone →
      ex.restore_zone = some (pre ++ c :: post) →
      status.lookup c = none →
      restoreLoopAsync dc pc zone status ex.restore_success pre ast = (.ok (), st2) →
      AmpControlAsync.restore_zone dc pc status ast = (.error .keyError, st2)) := by
  constructor
  · intro h
    simp [AmpControlAsync.restore_zone, h]
  · intro zone pre post c st2 hz hr hc hloop
    rw [restore_zone_async_run dc pc status ast ex zone (pre ++ c :: post) hz hx hr
      (by simp), restoreLoopAsync_append, hloop]
    exact restoreLoopAsync_missing dc pc zone status ex.restore_success c post st2 hc

/-- C10 witness: restoring with list [power, volume] from a status lacking
volume replays power, then raises KeyError with volume and later steps unsent. -/
theorem restore_zone_missing_field_aborts_witness :
    AmpControlAsync.restore_zone dcA pcA statusNoVol { replies := ["OK"], writes := [] } =
      (.error .keyError, { replies := [], writes := ["!11PR1+\x0d"] }) :=
  (restore_zone_missing_field_aborts dcA pcA statusNoVol { replies := ["OK"], writes := [] }
      { restore_success := some "OK", restore_zone := some ["power", "volume"] } rfl).2
    (.int 11) ["power"] [] "volume" { replies := [], writes := ["!11PR1+\x0d"] }
    (by decide) rfl (by decide) (by decide)

end Pyxantech

